import Mathlib

/-!
Shallow embedding of the `hello-asso` Rust client library
(`src/client.rs`, `src/error.rs`): OAuth2 client-credentials token
lifecycle (fetch, transport configuration, build, refresh), with the
error classification of `error.rs`.

Modelling conventions:
* `SystemTime` is seconds since `UNIX_EPOCH`, as a `Nat`; `SystemTime::now()`
  becomes an explicit `now : SystemTime` argument; `now + Duration::from_secs(n)`
  becomes `now + n`.
* The network round trip (`reqwest::Client::new().post(..).form(..).send()`)
  is an explicit argument `sendResult : Except ReqwestError HttpResponse`:
  a transport-level failure or a response carrying an HTTP status and a JSON body.
* `.json::<T>()` deserialization is a decoder `Json → Option T` requiring the
  struct's fields to be present with the right shapes (extra fields ignored,
  as serde does by default).
* A Rust panic (`unimplemented!`, `.expect(..)`) is an explicit `fatal`
  outcome constructor, distinct from `Ok`/`Err`.
* `&mut self` methods become state-passing: they return the post-state
  (paired with the result when the Rust return is `Result`).
-/

/-- SystemTime, modelled as whole seconds since the UNIX epoch. -/
abbrev SystemTime := Nat

/-- SystemTime::UNIX_EPOCH. -/
def UNIX_EPOCH : SystemTime := 0

/-- A reqwest error (transport failure or body-decode failure), carrying its
underlying cause as a message. -/
structure ReqwestError where
  msg : String
deriving Repr, DecidableEq

/-- The reqwest error produced when a response body fails to deserialize
into the expected struct. -/
def decodeFailure : ReqwestError := ⟨"error decoding response body"⟩

/-- The default header map of a transport: only the Authorization slot is
relevant to this library. A fresh transport has no Authorization header. -/
structure HeaderMap where
  authorization : Option String
deriving Repr, DecidableEq

/-- reqwest::Client: an HTTP transport with its baked-in default headers. -/
structure ReqwestClient where
  defaultHeaders : HeaderMap
deriving Repr, DecidableEq

/-- reqwest::Client::default(): a transport with no Authorization header. -/
def ReqwestClient.default : ReqwestClient := ⟨⟨none⟩⟩

/-- A JSON value (only the shapes this API uses: strings, non-negative
integers, objects). -/
inductive Json where
  | str (s : String)
  | num (n : Nat)
  | obj (fields : List (String × Json))
deriving Repr

/-- Look up a field of a JSON object. -/
def Json.getField : Json → String → Option Json
  | .obj fields, key => fields.lookup key
  | _, _ => none

/-- Extract a string field of a JSON object. -/
def Json.getStr (j : Json) (key : String) : Option String :=
  match j.getField key with
  | some (.str s) => some s
  | _ => none

/-- Extract an integer field of a JSON object. -/
def Json.getNat (j : Json) (key : String) : Option Nat :=
  match j.getField key with
  | some (.num n) => some n
  | _ => none

/-- An HTTP response: status code and JSON body. -/
structure HttpResponse where
  status : Nat
  body : Json
deriving Repr

/-- struct AccessTokenResponse (client.rs): the 200 body of the
client-credentials grant. `expires_in` is a u64 count of seconds. -/
structure AccessTokenResponse where
  access_token : String
  refresh_token : String
  token_type : String
  expires_in : Nat
deriving Repr, DecidableEq

/-- serde deserialization of AccessTokenResponse: all four fields must be
present with the right shapes; extra fields are ignored. -/
def decodeAccessTokenResponse (j : Json) : Option AccessTokenResponse := do
  let a ← j.getStr "access_token"
  let r ← j.getStr "refresh_token"
  let t ← j.getStr "token_type"
  let e ← j.getNat "expires_in"
  pure ⟨a, r, t, e⟩

/-- struct RefreshToken (client.rs): the body expected by refresh_token.
Its `token_type` field is commented out in the source, so only three fields
are required. -/
structure RefreshToken where
  access_token : String
  refresh_token : String
  expires_in : Nat
deriving Repr, DecidableEq

/-- serde deserialization of RefreshToken. -/
def decodeRefreshToken (j : Json) : Option RefreshToken := do
  let a ← j.getStr "access_token"
  let r ← j.getStr "refresh_token"
  let e ← j.getNat "expires_in"
  pure ⟨a, r, e⟩

/-- struct AuthenticationError (error.rs): the decoded 400 body, carrying
the vendor error code and its description. The same shape is returned by
the API whether the client_id or the client_secret is invalid. -/
structure AuthenticationError where
  error : String
  error_description : String
deriving Repr, DecidableEq

/-- serde deserialization of AuthenticationError. -/
def decodeAuthenticationError (j : Json) : Option AuthenticationError := do
  let e ← j.getStr "error"
  let d ← j.getStr "error_description"
  pure ⟨e, d⟩

/-- struct AuthorizationError (error.rs). -/
structure AuthorizationError where
  message : String
deriving Repr, DecidableEq

/-- enum Error (error.rs): the crate's error classification. -/
inductive Error where
  | ReqwestErr (e : ReqwestError)
  | AuthErr (e : AuthenticationError)
  | PermErr (e : AuthorizationError)
  | DecodeErr (e : ReqwestError)
deriving Repr, DecidableEq

/-- struct HelloAsso (client.rs): the authenticated client. -/
structure HelloAsso where
  client_id : String
  client_secret : String
  access_token : String
  refresh_token : String
  token_outdated_after : SystemTime
  client : ReqwestClient
deriving Repr, DecidableEq

/-- struct HelloAssoBuilder (client.rs): the transient builder. -/
structure HelloAssoBuilder where
  client_id : String
  client_secret : String
  access_token : Option String
  refresh_token : Option String
  token_type : Option String
  token_outdated_after : Option SystemTime
  client : Option ReqwestClient
deriving Repr, DecidableEq

/-- HelloAsso::builder (client.rs): a fresh builder with only the
credentials populated. -/
def HelloAsso.builder (client_id client_secret : String) : HelloAssoBuilder :=
  { client_id := client_id
    client_secret := client_secret
    access_token := none
    refresh_token := none
    token_type := none
    token_outdated_after := none
    client := none }

/-- Outcome of get_token: Ok(&mut Self), Err(Error), or a Rust panic
(the `unimplemented!` branch aborts rather than returning). -/
inductive GetTokenStatus where
  | ok
  | err (e : Error)
  | fatal
deriving Repr, DecidableEq

/-- HelloAssoBuilder::get_token (client.rs, lines 155-219). The network
round trip's outcome is passed in as `sendResult`; `now` is the instant
`SystemTime::now()` observes when the 200 body has been decoded. Returns
the outcome paired with the post-state of the builder (`&mut self`). -/
def HelloAssoBuilder.get_token (b : HelloAssoBuilder) (now : SystemTime)
    (sendResult : Except ReqwestError HttpResponse) :
    GetTokenStatus × HelloAssoBuilder :=
  match sendResult with
  | .error e => (.err (.ReqwestErr e), b)
  | .ok response =>
    if response.status = 200 then
      match decodeAccessTokenResponse response.body with
      | none => (.err (.DecodeErr decodeFailure), b)
      | some token =>
        (.ok,
         { b with
            access_token := some token.access_token
            refresh_token := some token.refresh_token
            token_type := some token.token_type
            token_outdated_after := some (now + token.expires_in) })
    else if response.status = 400 then
      match decodeAuthenticationError response.body with
      | none => (.err (.DecodeErr decodeFailure), b)
      | some error => (.err (.AuthErr error), b)
    else
      (.fatal, b)

/-- HelloAsso::refresh_token (client.rs, lines 95-130); named
`refreshToken` here because the structure already has a `refresh_token`
field. The Rust function returns Result<&mut Self, reqwest::Error> and
never inspects the HTTP status: it feeds the body straight to
`.json::<RefreshToken>()`. The first component is `some e` on failure (the
propagated reqwest error), `none` on success; the second is the post-state
of the client. -/
def HelloAsso.refreshToken (c : HelloAsso) (now : SystemTime)
    (sendResult : Except ReqwestError HttpResponse) :
    Option ReqwestError × HelloAsso :=
  match sendResult with
  | .error e => (some e, c)
  | .ok response =>
    match decodeRefreshToken response.body with
    | none => (some decodeFailure, c)
    | some token =>
      (none,
       { c with
          access_token := token.access_token
          refresh_token := token.refresh_token
          token_outdated_after := now + token.expires_in })

/-- HeaderValue::from_str via `.parse()`: a header value must be visible
ASCII or spaces (no control characters, no DEL). -/
def headerValueParse (s : String) : Option String :=
  if s.toList.all (fun ch => 32 ≤ ch.toNat ∧ ch.toNat ≤ 126) then some s else none

/-- Outcome of config_client: Ok(&mut Self), Err(Error) from the transport
builder, or a Rust panic from one of the two `.expect(..)` calls. -/
inductive ConfigResult where
  | ok (b : HelloAssoBuilder)
  | err (e : Error)
  | fatal (msg : String)
deriving Repr, DecidableEq

/-- HelloAssoBuilder::config_client (client.rs, lines 222-245): bake
`Authorization: Bearer <access_token>` into a new transport's default
headers. Panics (`.expect`) when no access token has been set, or when the
formatted header value fails to parse. The transport build step itself
cannot fail in this model. -/
def HelloAssoBuilder.config_client (b : HelloAssoBuilder) : ConfigResult :=
  match b.access_token with
  | none => .fatal "Can't get the access_token, use get_token"
  | some tok =>
    match headerValueParse ("Bearer " ++ tok) with
    | none => .fatal "Can't parse formatted token into a HeaderName"
    | some v =>
      .ok { b with client := some { defaultHeaders := { authorization := some v } } }

/-- HelloAssoBuilder::build (client.rs, lines 248-257): total assembly,
defaulting unpopulated fields (`unwrap_or_default` / `unwrap_or`). -/
def HelloAssoBuilder.build (b : HelloAssoBuilder) : HelloAsso :=
  { client_id := b.client_id
    client_secret := b.client_secret
    access_token := b.access_token.getD ""
    refresh_token := b.refresh_token.getD ""
    token_outdated_after := b.token_outdated_after.getD UNIX_EPOCH
    client := b.client.getD ReqwestClient.default }

/-- derivative(PartialEq) on HelloAsso with `PartialEq = "ignore"` on the
`client` field: the derived equality compares every field except the
transport. -/
def HelloAsso.partialEq (a b : HelloAsso) : Bool :=
  a.client_id == b.client_id &&
  a.client_secret == b.client_secret &&
  a.access_token == b.access_token &&
  a.refresh_token == b.refresh_token &&
  a.token_outdated_after == b.token_outdated_after

/-- Debug rendering of the transport inside HelloAsso's derived Debug. -/
def ReqwestClient.debugFmt (c : ReqwestClient) : String :=
  "Client \x7b authorization: " ++
    (match c.defaultHeaders.authorization with
      | none => "None"
      | some v => "Some(\"" ++ v ++ "\")") ++ " \x7d"

/-- derivative(Debug) on HelloAsso: the derived formatter prints every
field, name and value, the client secret included (no field is skipped or
redacted). -/
def HelloAsso.debugFmt (a : HelloAsso) : String :=
  "HelloAsso \x7b client_id: \"" ++ a.client_id ++
  "\", client_secret: \"" ++ a.client_secret ++
  "\", access_token: \"" ++ a.access_token ++
  "\", refresh_token: \"" ++ a.refresh_token ++
  "\", token_outdated_after: " ++ toString a.token_outdated_after ++
  ", client: " ++ a.client.debugFmt ++ " \x7d"

/-- derive(Debug) on HelloAssoBuilder: likewise prints every field,
the client secret included. -/
def HelloAssoBuilder.debugFmt (b : HelloAssoBuilder) : String :=
  "HelloAssoBuilder \x7b client_id: \"" ++ b.client_id ++
  "\", client_secret: \"" ++ b.client_secret ++
  "\", access_token: " ++ toString b.access_token ++
  ", refresh_token: " ++ toString b.refresh_token ++
  ", token_type: " ++ toString b.token_type ++
  ", token_outdated_after: " ++ toString b.token_outdated_after ++
  ", client: " ++ (match b.client with
      | none => "None"
      | some c => "Some(" ++ c.debugFmt ++ ")") ++ " \x7d"

/-- A 200 body as the token endpoint returns it, for concrete evaluation. -/
def sampleTokenBody : Json :=
  .obj [("access_token", .str "AT1"), ("refresh_token", .str "RT1"),
        ("token_type", .str "bearer"), ("expires_in", .num 1800)]

/-- A 400 body as the token endpoint returns it, for concrete evaluation. -/
def sampleErrorBody : Json :=
  .obj [("error", .str "unauthorized_client"),
        ("error_description", .str "Invalid client_id abc")]

/-- A fresh builder with concrete credentials, for concrete evaluation. -/
def sampleBuilder : HelloAssoBuilder := HelloAsso.builder "id0" "secret0"

/-- C1: on an HTTP 200 response whose JSON body decodes with the four
fields access_token, refresh_token, token_type, expires_in, get_token
stores the access and refresh tokens (and token_type) in the builder, sets
the expiry to now plus expires_in seconds, and returns success. -/
theorem get_token_200_stores_tokens (b : HelloAssoBuilder) (now : SystemTime)
    (resp : HttpResponse) (tok : AccessTokenResponse)
    (hs : resp.status = 200)
    (hd : decodeAccessTokenResponse resp.body = some tok) :
    b.get_token now (.ok resp) =
      (.ok,
       { b with
          access_token := some tok.access_token
          refresh_token := some tok.refresh_token
          token_type := some tok.token_type
          token_outdated_after := some (now + tok.expires_in) }) := by
  simp [HelloAssoBuilder.get_token, hs, hd]

/-- Witness for C1 at a concrete 200 response. -/
theorem get_token_200_stores_tokens_witness :
    sampleBuilder.get_token 5000 (.ok ⟨200, sampleTokenBody⟩) =
      (.ok,
       { sampleBuilder with
          access_token := some "AT1"
          refresh_token := some "RT1"
          token_type := some "bearer"
          token_outdated_after := some 6800 }) :=
  get_token_200_stores_tokens sampleBuilder 5000 ⟨200, sampleTokenBody⟩
    ⟨"AT1", "RT1", "bearer", 1800⟩ rfl (by decide)

/-- A configured client whose transport header was baked from access token
AT0, for concrete evaluation. -/
def sampleClient : HelloAsso :=
  { client_id := "id0"
    client_secret := "secret0"
    access_token := "AT0"
    refresh_token := "RT0"
    token_outdated_after := 3000
    client := { defaultHeaders := { authorization := some "Bearer AT0" } } }

/-- A refresh-grant 200 body, for concrete evaluation. -/
def sampleRefreshBody : Json :=
  .obj [("access_token", .str "AT2"), ("refresh_token", .str "RT2"),
        ("expires_in", .num 900)]

/-- C2: on an HTTP 400 response, get_token decodes the error body
as an AuthenticationError (vendor code and description, one shape for both
invalid client_id and invalid client_secret) and returns Error::AuthErr; if
the error body does not decode, Error::DecodeErr is returned instead. -/
theorem get_token_400_auth_error (b : HelloAssoBuilder) (now : SystemTime)
    (resp : HttpResponse) (hs : resp.status = 400) :
    (∀ e, decodeAuthenticationError resp.body = some e →
        b.get_token now (.ok resp) = (.err (.AuthErr e), b)) ∧
    (decodeAuthenticationError resp.body = none →
        b.get_token now (.ok resp) = (.err (.DecodeErr decodeFailure), b)) := by
  constructor
  · intro e hd
    simp [HelloAssoBuilder.get_token, hs, hd]
  · intro hd
    simp [HelloAssoBuilder.get_token, hs, hd]

/-- Witness for C2 at a concrete 400 response. -/
theorem get_token_400_auth_error_witness :
    sampleBuilder.get_token 0 (.ok ⟨400, sampleErrorBody⟩) =
      (.err (.AuthErr ⟨"unauthorized_client", "Invalid client_id abc"⟩),
       sampleBuilder) :=
  (get_token_400_auth_error sampleBuilder 0 ⟨400, sampleErrorBody⟩ rfl).1
    ⟨"unauthorized_client", "Invalid client_id abc"⟩ (by decide)

/-- C3: on an HTTP status other than 200 and 400, get_token hits the
`unimplemented!` branch: a fatal abort, which is neither the Ok outcome nor
any classified Err outcome. -/
theorem get_token_other_status_fatal (b : HelloAssoBuilder) (now : SystemTime)
    (resp : HttpResponse) (h200 : resp.status ≠ 200) (h400 : resp.status ≠ 400) :
    b.get_token now (.ok resp) = (.fatal, b) ∧
    (b.get_token now (.ok resp)).1 ≠ .ok ∧
    (∀ e, (b.get_token now (.ok resp)).1 ≠ .err e) := by
  have h : b.get_token now (.ok resp) = (.fatal, b) := by
    simp [HelloAssoBuilder.get_token, h200, h400]
  refine ⟨h, ?_, ?_⟩
  · simp [h]
  · intro e
    simp [h]

/-- Witness for C3 at a concrete 500 response. -/
theorem get_token_other_status_fatal_witness :
    sampleBuilder.get_token 0 (.ok ⟨500, .obj []⟩) = (.fatal, sampleBuilder) :=
  (get_token_other_status_fatal sampleBuilder 0 ⟨500, .obj []⟩
    (by decide) (by decide)).1

/-- C4: a successful refresh replaces exactly the access token, the refresh
token, and the expiry (set to now + expires_in); client_id, client_secret
and the transport are untouched, so a transport header baked from the
pre-refresh access token still carries that old token. -/
theorem refresh_token_success_frame (c : HelloAsso) (now : SystemTime)
    (resp : HttpResponse) (tok : RefreshToken)
    (hd : decodeRefreshToken resp.body = some tok) :
    c.refreshToken now (.ok resp) =
      (none,
       { c with
          access_token := tok.access_token
          refresh_token := tok.refresh_token
          token_outdated_after := now + tok.expires_in }) ∧
    (c.refreshToken now (.ok resp)).2.client = c.client ∧
    (c.refreshToken now (.ok resp)).2.client_id = c.client_id ∧
    (c.refreshToken now (.ok resp)).2.client_secret = c.client_secret ∧
    (c.client.defaultHeaders.authorization = some ("Bearer " ++ c.access_token) →
      (c.refreshToken now (.ok resp)).2.client.defaultHeaders.authorization =
        some ("Bearer " ++ c.access_token)) := by
  simp [HelloAsso.refreshToken, hd]

/-- Witness for C4: after a concrete successful refresh the tokens and
expiry change but the transport header still says Bearer AT0. -/
theorem refresh_token_success_frame_witness :
    sampleClient.refreshToken 7000 (.ok ⟨200, sampleRefreshBody⟩) =
      (none,
       { sampleClient with
          access_token := "AT2"
          refresh_token := "RT2"
          token_outdated_after := 7900 }) :=
  (refresh_token_success_frame sampleClient 7000 ⟨200, sampleRefreshBody⟩
    ⟨"AT2", "RT2", 900⟩ (by decide)).1

/-- C5: a failed refresh (transport failure or body-decode failure) leaves
every field of the client exactly as it was and propagates the error to the
caller with no retry; a transport-level error is propagated verbatim. -/
theorem refresh_token_failure_frame (c : HelloAsso) (now : SystemTime)
    (sr : Except ReqwestError HttpResponse) (e : ReqwestError)
    (hfail : (c.refreshToken now sr).1 = some e) :
    (c.refreshToken now sr).2 = c ∧
    (∀ e2, sr = .error e2 → e = e2) := by
  cases sr with
  | error e2 =>
    refine ⟨rfl, ?_⟩
    intro e3 hsr
    simp [HelloAsso.refreshToken] at hfail
    cases hsr
    exact hfail.symm
  | ok resp =>
    cases hdec : decodeRefreshToken resp.body with
    | none =>
      refine ⟨?_, ?_⟩
      · simp [HelloAsso.refreshToken, hdec]
      · intro e3 hsr
        cases hsr
    | some tok =>
      rw [HelloAsso.refreshToken] at hfail
      simp [hdec] at hfail

/-- Witness for C5 at a concrete transport failure. -/
theorem refresh_token_failure_frame_witness :
    (sampleClient.refreshToken 7000 (.error ⟨"connection refused"⟩)).2 =
      sampleClient :=
  (refresh_token_failure_frame sampleClient 7000 (.error ⟨"connection refused"⟩)
    ⟨"connection refused"⟩ rfl).1

/-- C6: config_client on a builder with no access token panics at the
`.expect` call (a fatal abort); it never returns Ok, so no unauthenticated
transport is ever produced by this path. -/
theorem config_client_without_token_fails (b : HelloAssoBuilder)
    (h : b.access_token = none) :
    b.config_client = .fatal "Can't get the access_token, use get_token" ∧
    (∀ b2, b.config_client ≠ .ok b2) := by
  have hf : b.config_client = .fatal "Can't get the access_token, use get_token" := by
    rw [HelloAssoBuilder.config_client, h]
  refine ⟨hf, ?_⟩
  intro b2
  simp [hf]

/-- Witness for C6: the fresh sample builder has no token and config_client
aborts on it. -/
theorem config_client_without_token_fails_witness :
    sampleBuilder.config_client =
      .fatal "Can't get the access_token, use get_token" :=
  (config_client_without_token_fails sampleBuilder rfl).1

/-- C7: build always succeeds, copying the accumulated fields into a
client; unpopulated fields default: tokens to the empty string, expiry to
the UNIX epoch, transport to the default unauthenticated transport. -/
theorem build_total_with_defaults (b : HelloAssoBuilder) :
    b.build =
      { client_id := b.client_id
        client_secret := b.client_secret
        access_token := b.access_token.getD ""
        refresh_token := b.refresh_token.getD ""
        token_outdated_after := b.token_outdated_after.getD UNIX_EPOCH
        client := b.client.getD ReqwestClient.default } ∧
    (b.access_token = none → b.build.access_token = "") ∧
    (b.refresh_token = none → b.build.refresh_token = "") ∧
    (b.token_outdated_after = none → b.build.token_outdated_after = UNIX_EPOCH) ∧
    (b.client = none → b.build.client = ReqwestClient.default) := by
  refine ⟨rfl, ?_, ?_, ?_, ?_⟩ <;> intro h <;> simp [HelloAssoBuilder.build, h]

/-- Witness for C7: building the fresh sample builder yields the fully
defaulted client. -/
theorem build_total_with_defaults_witness :
    sampleBuilder.build.access_token = "" ∧
    sampleBuilder.build.refresh_token = "" ∧
    sampleBuilder.build.token_outdated_after = UNIX_EPOCH ∧
    sampleBuilder.build.client = ReqwestClient.default :=
  ⟨(build_total_with_defaults sampleBuilder).2.1 rfl,
   (build_total_with_defaults sampleBuilder).2.2.1 rfl,
   (build_total_with_defaults sampleBuilder).2.2.2.1 rfl,
   (build_total_with_defaults sampleBuilder).2.2.2.2 rfl⟩

/-- A 200 token body whose expires_in is zero; get_token accepts any u64
there, zero included. -/
def zeroExpiryBody : Json :=
  .obj [("access_token", .str "AT1"), ("refresh_token", .str "RT1"),
        ("token_type", .str "bearer"), ("expires_in", .num 0)]

/-- C8 counterexample: a fetch that succeeds with expires_in = 0 at
completion time 1000 stores expiry 1000 — equal to, not strictly greater
than, the completion time. -/
theorem get_token_zero_expiry_not_future :
    (sampleBuilder.get_token 1000 (.ok ⟨200, zeroExpiryBody⟩)).1 = .ok ∧
    (sampleBuilder.get_token 1000
        (.ok ⟨200, zeroExpiryBody⟩)).2.token_outdated_after.getD 0 = 1000 ∧
    ¬ (1000 < (sampleBuilder.get_token 1000
        (.ok ⟨200, zeroExpiryBody⟩)).2.token_outdated_after.getD 0) := by
  decide

/-- C8 amended: a successful token fetch stores the access token, the
refresh token, and an expiry of now + expires_in; the expiry is never
earlier than the completion time, and is strictly in the future whenever
the server-supplied expires_in is positive (with expires_in = 0 it equals
the completion time). -/
theorem get_token_success_expiry (b : HelloAssoBuilder) (now : SystemTime)
    (resp : HttpResponse) (tok : AccessTokenResponse)
    (hs : resp.status = 200)
    (hd : decodeAccessTokenResponse resp.body = some tok) :
    (b.get_token now (.ok resp)).1 = .ok ∧
    (b.get_token now (.ok resp)).2.access_token = some tok.access_token ∧
    (b.get_token now (.ok resp)).2.refresh_token = some tok.refresh_token ∧
    (b.get_token now (.ok resp)).2.token_outdated_after =
      some (now + tok.expires_in) ∧
    now ≤ now + tok.expires_in ∧
    (0 < tok.expires_in → now < now + tok.expires_in) := by
  refine ⟨?_, ?_, ?_, ?_, ?_, ?_⟩ <;>
    simp [HelloAssoBuilder.get_token, hs, hd]

/-- Witness for the amended C8 at the concrete 200 body with
expires_in = 1800 > 0. -/
theorem get_token_success_expiry_witness :
    (sampleBuilder.get_token 5000 (.ok ⟨200, sampleTokenBody⟩)).1 = .ok ∧
    (sampleBuilder.get_token 5000
        (.ok ⟨200, sampleTokenBody⟩)).2.token_outdated_after = some 6800 ∧
    (5000 : Nat) < 6800 :=
  ⟨(get_token_success_expiry sampleBuilder 5000 ⟨200, sampleTokenBody⟩
      ⟨"AT1", "RT1", "bearer", 1800⟩ rfl (by decide)).1,
   (get_token_success_expiry sampleBuilder 5000 ⟨200, sampleTokenBody⟩
      ⟨"AT1", "RT1", "bearer", 1800⟩ rfl (by decide)).2.2.2.1,
   (get_token_success_expiry sampleBuilder 5000 ⟨200, sampleTokenBody⟩
      ⟨"AT1", "RT1", "bearer", 1800⟩ rfl (by decide)).2.2.2.2.2 (by decide)⟩

/-- String concatenation is associative (helper for the Debug-format
theorems). -/
theorem string_append_assoc (a b c : String) : a ++ b ++ c = a ++ (b ++ c) := by
  cases a with | mk a =>
  cases b with | mk b =>
  cases c with | mk c =>
  show String.mk (a ++ b ++ c) = String.mk (a ++ (b ++ c))
  rw [List.append_assoc]

/-- C9: the derived Debug formatting of a client value prints the
client_secret field verbatim — the rendering always contains the client
secret as a substring, for every client value. The spec forbids ever
emitting the secret, so this is a bug in the code, not in the spec. -/
theorem debug_format_reveals_client_secret (a : HelloAsso) :
    ∃ s1 s2, a.debugFmt = s1 ++ a.client_secret ++ s2 := by
  refine ⟨"HelloAsso \x7b client_id: \"" ++ a.client_id ++ "\", client_secret: \"",
    "\", access_token: \"" ++ a.access_token ++
    "\", refresh_token: \"" ++ a.refresh_token ++
    "\", token_outdated_after: " ++ toString a.token_outdated_after ++
    ", client: " ++ a.client.debugFmt ++ " \x7d", ?_⟩
  rw [HelloAsso.debugFmt]
  simp [string_append_assoc]

/-- C10: the derived equality on clients ignores the transport field: two
clients agreeing on client_id, client_secret, access_token, refresh_token
and expiry compare equal regardless of their transports. -/
theorem partialEq_ignores_transport (a b : HelloAsso)
    (h1 : a.client_id = b.client_id)
    (h2 : a.client_secret = b.client_secret)
    (h3 : a.access_token = b.access_token)
    (h4 : a.refresh_token = b.refresh_token)
    (h5 : a.token_outdated_after = b.token_outdated_after) :
    HelloAsso.partialEq a b = true := by
  simp [HelloAsso.partialEq, h1, h2, h3, h4, h5]

/-- The sample client with its transport swapped for the default
(header-less) one: all other fields agree with sampleClient. -/
def sampleClientBareTransport : HelloAsso :=
  { sampleClient with client := ReqwestClient.default }

/-- Witness for C10: two concrete clients with different transports (one
carries a Bearer header, the other none) still compare equal. -/
theorem partialEq_ignores_transport_witness :
    sampleClient.client ≠ sampleClientBareTransport.client ∧
    HelloAsso.partialEq sampleClient sampleClientBareTransport = true :=
  ⟨by decide,
   partialEq_ignores_transport sampleClient sampleClientBareTransport
     rfl rfl rfl rfl rfl⟩
